import Mathlib

/-!
Verification of the HEMIS ESP32 telemetry agent (src/esp32.cpp).

This file gives a shallow embedding of the core logic of the sketch:

* the acquisition routine `readSensors` (gate on `lastSensorRead`,
  per-slot bounded busy-wait on the particle sensor, estimator call),
* the transmission routine `sendDataToBackend` (WiFi link check,
  JSON payload construction, bounded retry loop with constant backoff),
* the scheduler pass `loop` (one invocation of the Arduino `loop()` body)
  and its iteration `runLoop` over a list of passes.

Modelling conventions:

* `millis()` values are natural numbers counting milliseconds since boot.
  The C code stores them in `unsigned long` (32 bits on the ESP32) and
  compares via wrap-around subtraction; `elapsed32` reproduces that
  unsigned subtraction exactly, so no overflow behaviour is lost.
* the MAX30105 particle sensor is an external collaborator; it is modelled
  as an arbitrary pure state machine `SensorModel σ` exposing exactly the
  operations the sketch uses (`available`, `check`, `getRed`, `getIR`,
  `nextSample`).  `delay(...)` calls consume no modelled state.
* `maxim_heart_rate_and_oxygen_saturation` is an external pure function,
  modelled as an arbitrary `Estimator` returning
  `(spo2, validSPO2, heartRate, validHeartRate)` — the order of the output
  pointers at the call site.  The validity flags are `int8_t` in the C
  code and are kept as integers (the sketch only tests their truthiness).
* the HTTP transport is modelled by an oracle `resp : Nat → Int` giving
  the result of the k-th `http.POST` of one `sendDataToBackend` call
  (positive = HTTP status code, non-positive = transport error), exactly
  the values the sketch branches on.
* observable effects that the claims talk about (POST attempts, backoff
  delays, reconnection, temperature reads) are recorded in event lists /
  counters so that trace properties can be stated.
-/

namespace Hemis

variable {σ : Type}

/-- BUFFER_SIZE (esp32.cpp line 32): capacity of the ir/red sample buffers. -/
def BUFFER_SIZE : Nat := 100

/-- SENSOR_READ_INTERVAL (line 44): minimum ms between acquisition cycles. -/
def SENSOR_READ_INTERVAL : Nat := 2000

/-- DATA_SEND_INTERVAL (line 45): minimum ms between transmission cycles. -/
def DATA_SEND_INTERVAL : Nat := 1000

/-- DEVICE_ID (line 25). -/
def DEVICE_ID : Int := 1

/-- maxRetries (line 159): maximum number of POST attempts per record. -/
def maxRetries : Nat := 3

/-- ATTEMPT_BUDGET (line 103): bound `attempts < 100` of the availability
busy-wait inside a single buffer slot. -/
def ATTEMPT_BUDGET : Nat := 100

/-- Modulus of the 32-bit `unsigned long` used by `millis()` arithmetic. -/
def UINT32_MOD : Nat := 4294967296

/-- The value computed by `now - last` in C `unsigned long` arithmetic,
for true (unwrapped) ms counts `now` and `last`: both operands are stored
mod 2^32 and the subtraction wraps mod 2^32. -/
def elapsed32 (now last : Nat) : Nat :=
  (now % UINT32_MOD + (UINT32_MOD - last % UINT32_MOD)) % UINT32_MOD

theorem elapsed32_eq (now last : Nat) (h : last ≤ now) :
    elapsed32 now last = (now - last) % UINT32_MOD := by
  unfold elapsed32 UINT32_MOD
  omega

theorem elapsed32_ge (now last c : Nat) (h : last ≤ now) (hc : c ≤ UINT32_MOD)
    (hg : c ≤ elapsed32 now last) : last + c ≤ now := by
  unfold elapsed32 UINT32_MOD at *
  omega

/-- The global mutable state of the sketch that the core logic touches:
the four estimator outputs (lines 36–39, `int32_t`/`int8_t`, zero
initialised) and the two timers (lines 42–43). -/
structure Globals where
  spo2 : Int
  validSPO2 : Int
  heartRate : Int
  validHeartRate : Int
  lastSensorRead : Nat
  lastDataSend : Nat
deriving DecidableEq

/-- State of the globals at the end of `setup()` (lines 246–248, and C++
zero initialisation of the file scope variables). -/
def initGlobals : Globals := ⟨0, 0, 0, 0, 0, 0⟩

/-- The interface of the MAX30105 particle sensor used by the sketch,
over an arbitrary sensor-state type `σ`.  `available`, `getRed`, `getIR`
are pure reads; `check` and `nextSample` advance the sensor state. -/
structure SensorModel (σ : Type) where
  available : σ → Bool
  check : σ → σ
  getRed : σ → Nat
  getIR : σ → Nat
  nextSample : σ → σ

/-- The external estimator `maxim_heart_rate_and_oxygen_saturation`,
as a pure function of the ir and red buffers, returning
`(spo2, validSPO2, heartRate, validHeartRate)` in the order of the output
pointers at the call site (lines 121–126). -/
def Estimator : Type := List Nat → List Nat → Int × Int × Int × Int

/-- The busy-wait of lines 102–107:
`while (!particleSensor.available() && attempts < 100) { check(); delay(10); attempts++; }`.
`fuel` is the number of attempts still allowed (initially `ATTEMPT_BUDGET`).
Returns `(sensor state after the loop, number of check() calls made,
number of available() evaluations made by the loop guard)`. -/
def waitAvail (M : SensorModel σ) : Nat → σ → σ × Nat × Nat
  | 0, s => (s, 0, 1)
  | fuel + 1, s =>
    if M.available s then (s, 0, 1)
    else
      let r := waitAvail M fuel (M.check s)
      (r.1, r.2.1 + 1, r.2.2 + 1)

/-- One iteration of the fill loop body (lines 101–118): busy-wait for
availability, re-test availability (line 109; returning `none` aborts the
fill), then read both channels and advance the FIFO.  The last component
counts all `particleSensor.available()` evaluations made for this slot. -/
def readSlot (M : SensorModel σ) (s : σ) : Option (Nat × Nat) × σ × Nat :=
  let w := waitAvail M ATTEMPT_BUDGET s
  if M.available w.1 then
    (some (M.getRed w.1, M.getIR w.1), M.nextSample w.1, w.2.2 + 1)
  else
    (none, w.1, w.2.2 + 1)

/-- Result of filling the sample buffers: either the fill was aborted by a
sensor timeout after some slots, or all requested slots were read.  The
sample lists are in acquisition order; `polls` counts every
`available()` evaluation made during the fill. -/
inductive FillRes (σ : Type) where
  | timedOut (red ir : List Nat) (s : σ) (polls : Nat)
  | complete (red ir : List Nat) (s : σ) (polls : Nat)
deriving DecidableEq

/-- Whether the fill reached all requested slots. -/
def FillRes.isComplete : FillRes σ → Bool
  | .timedOut _ _ _ _ => false
  | .complete _ _ _ _ => true

/-- Whether the fill was aborted by a sensor timeout. -/
def FillRes.isTimedOut : FillRes σ → Bool
  | .timedOut _ _ _ _ => true
  | .complete _ _ _ _ => false

/-- Total number of `available()` evaluations made during the fill. -/
def FillRes.polls : FillRes σ → Nat
  | .timedOut _ _ _ p => p
  | .complete _ _ _ p => p

/-- The fill loop of lines 101–118, for `n` remaining slots, accumulating
the samples read so far (in reverse) and the poll count so far. -/
def fillBuffers (M : SensorModel σ) : Nat → σ → List Nat → List Nat → Nat → FillRes σ
  | 0, s, red, ir, polls => .complete red.reverse ir.reverse s polls
  | n + 1, s, red, ir, polls =>
    match readSlot M s with
    | (none, s1, p) => .timedOut red.reverse ir.reverse s1 (polls + p)
    | (some rv, s1, p) => fillBuffers M n s1 (rv.1 :: red) (rv.2 :: ir) (polls + p)

/-- Result of one `readSensors()` call.  `ok` is the C return value;
`ranFill` records whether the rate gate passed (so the fill loop ran);
`g` and `s` are the global and sensor state afterwards. -/
structure AcqResult (σ : Type) where
  ok : Bool
  ranFill : Bool
  g : Globals
  s : σ

/-- The function readSensors() of lines 90–129.  `tGate` is the `millis()` value read
by the gate comparison at line 92 and `tSet` the one stored into
`lastSensorRead` at line 96 (two separate calls, `tGate ≤ tSet` in any
real execution).  On a complete fill the estimator output overwrites the
four vital globals; on a timeout the function returns false having touched
only `lastSensorRead`. -/
def readSensors (M : SensorModel σ) (est : Estimator) (tGate tSet : Nat)
    (g : Globals) (s : σ) : AcqResult σ :=
  if elapsed32 tGate g.lastSensorRead < SENSOR_READ_INTERVAL then
    ⟨false, false, g, s⟩
  else
    match fillBuffers M BUFFER_SIZE s [] [] 0 with
    | .timedOut _ _ s1 _ => ⟨false, true, { g with lastSensorRead := tSet }, s1⟩
    | .complete red ir s1 _ =>
      ⟨true, true,
        { spo2 := (est ir red).1, validSPO2 := (est ir red).2.1,
          heartRate := (est ir red).2.2.1, validHeartRate := (est ir red).2.2.2,
          lastSensorRead := tSet, lastDataSend := g.lastDataSend }, s1⟩

/-- A JSON scalar value as used by the payload of the sketch. -/
inductive JVal where
  | jint (n : Int)
  | jrat (q : Rat)
  | jstr (s : String)
deriving DecidableEq

/-- The JSON document built at lines 144–149, as an association list in
insertion order.  `temp` is the value returned by the fresh
`mlx.readObjectTempC()` call of line 148 and `ts` the string returned by
`getCurrentTimestamp()` at line 149.  The `? :` truthiness tests on the
`int8_t` validity flags are `≠ 0` tests. -/
def buildPayload (g : Globals) (temp : Rat) (ts : String) : List (String × JVal) :=
  [("device_id", JVal.jint DEVICE_ID),
   ("heart_rate", JVal.jint (if g.validHeartRate ≠ 0 then g.heartRate else 0)),
   ("spo2", JVal.jint (if g.validSPO2 ≠ 0 then g.spo2 else 0)),
   ("temp_skin", JVal.jrat temp),
   ("timestamp", JVal.jstr ts)]

/-- Observable events of the delivery retry loop: one `http.POST` call
with its result code, or one `delay(2000)` backoff. -/
inductive Ev where
  | post (code : Int)
  | backoff (ms : Nat)
deriving DecidableEq

/-- Number of POST attempts in an event trace. -/
def countPosts : List Ev → Nat
  | [] => 0
  | .post _ :: evs => countPosts evs + 1
  | .backoff _ :: evs => countPosts evs

/-- Classification of one `http.POST` result, mirroring the branch
structure of lines 165–194: positive codes 200/201 succeed, positive
codes 301/302 are redirects, every other positive code and every
non-positive (transport error) result is handled by the retry branch. -/
inductive HttpClass where
  | success
  | redirect
  | retryable
deriving DecidableEq

/-- The branch taken for a POST result `code` (lines 165, 169, 173, 177, 185). -/
def classify (code : Int) : HttpClass :=
  if 0 < code then
    if code = 200 ∨ code = 201 then .success
    else if code = 301 ∨ code = 302 then .redirect
    else .retryable
  else .retryable

/-- How one `sendDataToBackend()` call ended: a 200/201 break, a 301/302
break, exhaustion of the retry budget (`retryCount` reached `maxRetries`),
or the link-down early return of lines 132–136.  In every case other than
`delivered` the record is discarded. -/
inductive SendOutcome where
  | delivered (code : Int)
  | rejected (code : Int)
  | exhausted
  | linkDown
deriving DecidableEq

/-- The retry loop of lines 158–195:
`while (retryCount < maxRetries) { code = POST; ...}` with a
`delay(2000)` between consecutive attempts (only when retries remain).
`resp k` is the result of the k-th POST; at the start of each iteration
`retryCount` equals the number of POSTs already made.  `fuel` is a
structural bound on the remaining iterations (the loop itself is bounded
by `retryCount < maxRetries`). -/
def retryLoop (resp : Nat → Int) : Nat → Nat → List Ev × SendOutcome
  | 0, _ => ([], .exhausted)
  | fuel + 1, retryCount =>
    if retryCount < maxRetries then
      match classify (resp retryCount) with
      | .success => ([Ev.post (resp retryCount)], .delivered (resp retryCount))
      | .redirect => ([Ev.post (resp retryCount)], .rejected (resp retryCount))
      | .retryable =>
        let rest := retryLoop resp fuel (retryCount + 1)
        if retryCount + 1 < maxRetries then
          (Ev.post (resp retryCount) :: Ev.backoff 2000 :: rest.1, rest.2)
        else
          (Ev.post (resp retryCount) :: rest.1, rest.2)
    else ([], .exhausted)

/-- Everything observable about one `sendDataToBackend()` call:
whether `connectWiFi()` was invoked (line 134), the JSON record built (if
any), how many times `mlx.readObjectTempC()` was called, the POST/backoff
trace, and how the call ended. -/
structure SendReport where
  reconnect : Bool
  payload : Option (List (String × JVal))
  tempReads : Nat
  events : List Ev
  outcome : SendOutcome
deriving DecidableEq

/-- The function sendDataToBackend() of lines 131–198.  `wifiConnected` is the value
of `WiFi.status() == WL_CONNECTED` at line 132; when false the function
reconnects and returns before building the payload or POSTing anything. -/
def sendDataToBackend (wifiConnected : Bool) (g : Globals) (temp : Rat)
    (ts : String) (resp : Nat → Int) : SendReport :=
  if wifiConnected = false then
    ⟨true, none, 0, [], .linkDown⟩
  else
    let r := retryLoop resp (maxRetries + 1) 0
    ⟨false, some (buildPayload g temp ts), 1, r.1, r.2⟩

/-- The transmission block of `loop()` (lines 267–270): if the send gate
passes, `lastDataSend` is set to `currentTime` (read at line 252, before
`readSensors()`) and `sendDataToBackend()` runs on the updated globals. -/
def transmissionTick (currentTime : Nat) (g : Globals) (wifiConnected : Bool)
    (temp : Rat) (ts : String) (resp : Nat → Int) : Globals × Option SendReport :=
  if DATA_SEND_INTERVAL ≤ elapsed32 currentTime g.lastDataSend then
    ({ g with lastDataSend := currentTime },
     some (sendDataToBackend wifiConnected { g with lastDataSend := currentTime } temp ts resp))
  else (g, none)

/-- The per-pass environment of one `loop()` body execution: the
`millis()` reading of line 252 (`tLoop`), the two `millis()` readings
inside `readSensors` (lines 92 and 96, `tGate ≤ tSet`), the WiFi link
state, the temperature and timestamp reads, and the POST oracle.  In a
real execution `tLoop ≤ tGate ≤ tSet` and times grow across passes. -/
structure PassEnv where
  tLoop : Nat
  tGate : Nat
  tSet : Nat
  wifiConnected : Bool
  temp : Rat
  ts : String
  resp : Nat → Int

/-- Observable outputs of one `loop()` pass. -/
structure PassOut where
  ranFill : Bool
  acquired : Bool
  tempReads : Nat
  sent : Option SendReport

/-- One execution of the `loop()` body (lines 251–274): `readSensors`
first (its success additionally triggers the temperature read of line
256 for the serial print), then the gated transmission block. -/
def loop (M : SensorModel σ) (est : Estimator) (e : PassEnv) (g : Globals)
    (s : σ) : Globals × σ × PassOut :=
  let a := readSensors M est e.tGate e.tSet g s
  let t := transmissionTick e.tLoop a.g e.wifiConnected e.temp e.ts e.resp
  (t.1, a.s,
   ⟨a.ranFill, a.ok,
    (if a.ok then 1 else 0) +
      (match t.2 with
       | some rep => rep.tempReads
       | none => 0),
    t.2⟩)

/-- Iterating the Arduino runtime: run the `loop()` body once per
environment in `es`, threading globals and sensor state, collecting the
per-pass outputs. -/
def runLoop (M : SensorModel σ) (est : Estimator) :
    List PassEnv → Globals → σ → (Globals × σ) × List PassOut
  | [], g, s => ((g, s), [])
  | e :: es, g, s =>
    let p := loop M est e g s
    let r := runLoop M est es p.1 p.2.1
    (r.1, p.2.2 :: r.2)

/-- Timestamps (`tLoop`) of the passes whose transmission gate passed. -/
def sendTimesOf : List PassEnv → List PassOut → List Nat
  | e :: es, o :: os => (if o.sent.isSome then [e.tLoop] else []) ++ sendTimesOf es os
  | _, _ => []

/-- Timestamps (`tGate`) of the passes whose acquisition gate passed. -/
def fillTimesOf : List PassEnv → List PassOut → List Nat
  | e :: es, o :: os => (if o.ranFill then [e.tGate] else []) ++ fillTimesOf es os
  | _, _ => []

/-- Monotonicity of the `millis()` readings of a run: `t` is a lower
bound for the first pass, the three readings of each pass are ordered,
and each pass's last reading bounds the next pass. -/
def envsOrdered : Nat → List PassEnv → Bool
  | _, [] => true
  | t, e :: es =>
    decide (t ≤ e.tLoop) && decide (e.tLoop ≤ e.tGate) &&
      decide (e.tGate ≤ e.tSet) && envsOrdered e.tSet es

/-- A complete fill of `n` further slots extends both sample lists by
exactly `n` entries. -/
theorem fillBuffers_complete_length (M : SensorModel σ) :
    ∀ (n : Nat) (s : σ) (red ir : List Nat) (polls : Nat)
      (red2 ir2 : List Nat) (s2 : σ) (p2 : Nat),
      fillBuffers M n s red ir polls = .complete red2 ir2 s2 p2 →
      red2.length = red.length + n ∧ ir2.length = ir.length + n := by
  intro n
  induction n with
  | zero =>
    intro s red ir polls red2 ir2 s2 p2 h
    simp only [fillBuffers, FillRes.complete.injEq] at h
    obtain ⟨h1, h2, _, _⟩ := h
    simp [← h1, ← h2]
  | succ n ih =>
    intro s red ir polls red2 ir2 s2 p2 h
    simp only [fillBuffers] at h
    rcases hr : readSlot M s with ⟨o, s1, p⟩
    rw [hr] at h
    cases o with
    | none => simp at h
    | some rv =>
      simp only at h
      have := ih s1 (rv.1 :: red) (rv.2 :: ir) (polls + p) red2 ir2 s2 p2 h
      simp only [List.length_cons] at this
      omega

/-- C1: for every acquisition cycle that passes its gate, the
VitalEstimate fields (`heartRate`, `validHeartRate`, `spo2`, `validSPO2`)
are overwritten (with the estimator output) if and only if the sample
buffer reaches exactly `BUFFER_SIZE = 100` samples before a sensor
timeout; a timed-out fill makes `readSensors` return `false` and leaves
all four fields unchanged (only `lastSensorRead` is touched). -/
theorem c1_estimate_updated_iff_buffer_complete (M : SensorModel σ)
    (est : Estimator) (tGate tSet : Nat) (g : Globals) (s : σ)
    (hgate : SENSOR_READ_INTERVAL ≤ elapsed32 tGate g.lastSensorRead) :
    (∀ red ir s1 p,
      fillBuffers M BUFFER_SIZE s [] [] 0 = .complete red ir s1 p →
        red.length = BUFFER_SIZE ∧ ir.length = BUFFER_SIZE ∧
        readSensors M est tGate tSet g s =
          ⟨true, true,
            { spo2 := (est ir red).1, validSPO2 := (est ir red).2.1,
              heartRate := (est ir red).2.2.1,
              validHeartRate := (est ir red).2.2.2,
              lastSensorRead := tSet, lastDataSend := g.lastDataSend }, s1⟩) ∧
    (∀ red ir s1 p,
      fillBuffers M BUFFER_SIZE s [] [] 0 = .timedOut red ir s1 p →
        readSensors M est tGate tSet g s =
          ⟨false, true, { g with lastSensorRead := tSet }, s1⟩) := by
  have hlt : ¬ elapsed32 tGate g.lastSensorRead < SENSOR_READ_INTERVAL :=
    not_lt.mpr hgate
  constructor
  · intro red ir s1 p hfill
    have hlen := fillBuffers_complete_length M BUFFER_SIZE s [] [] 0 red ir s1 p hfill
    simp only [List.length_nil, Nat.zero_add] at hlen
    refine ⟨hlen.1, hlen.2, ?_⟩
    simp only [readSensors, if_neg hlt, hfill]
  · intro red ir s1 p hfill
    simp only [readSensors, if_neg hlt, hfill]

/-- C1 witness: with a sensor that is never available, the fill of the
first slot times out after the full attempt budget, `readSensors` returns
`false`, and the vital globals stay at their initial zeros. -/
theorem c1_estimate_updated_iff_buffer_complete_witness :
    SENSOR_READ_INTERVAL ≤ elapsed32 2000 initGlobals.lastSensorRead ∧
    readSensors (⟨fun _ => false, fun s => s, fun _ => 0, fun _ => 0, fun s => s⟩ :
        SensorModel Unit) (fun _ _ => (0, 0, 0, 0)) 2000 2000 initGlobals () =
      ⟨false, true, ⟨0, 0, 0, 0, 2000, 0⟩, ()⟩ :=
  ⟨by decide,
   (c1_estimate_updated_iff_buffer_complete
      (⟨fun _ => false, fun s => s, fun _ => 0, fun _ => 0, fun s => s⟩ :
        SensorModel Unit) (fun _ _ => (0, 0, 0, 0)) 2000 2000 initGlobals ()
      (by decide)).2 [] [] () 102 (by decide)⟩

/-- C2: in every outbound record, a false (zero) `validHeartRate` flag
makes the reported `heart_rate` field `0` and a true (nonzero) flag makes
it the raw `heartRate` value; likewise `validSPO2` and `spo2`. -/
theorem c2_invalid_fields_reported_as_zero (g : Globals) (temp : Rat)
    (ts : String) (resp : Nat → Int) :
    ∀ p, (sendDataToBackend true g temp ts resp).payload = some p →
      List.lookup "heart_rate" p =
        some (JVal.jint (if g.validHeartRate = 0 then 0 else g.heartRate)) ∧
      List.lookup "spo2" p =
        some (JVal.jint (if g.validSPO2 = 0 then 0 else g.spo2)) := by
  intro p hp
  simp only [sendDataToBackend, Bool.true_eq_false, if_false, Option.some.injEq] at hp
  subst hp
  constructor
  · by_cases h : g.validHeartRate = 0 <;>
      simp [buildPayload, List.lookup, h]
  · by_cases h : g.validSPO2 = 0 <;>
      simp [buildPayload, List.lookup, h]

/-- C2 witness: at the initial (zero-flag) globals the reported fields
are both zero. -/
theorem c2_invalid_fields_reported_as_zero_witness :
    (sendDataToBackend true initGlobals 0 "t0" (fun _ => 200)).payload =
      some (buildPayload initGlobals 0 "t0") ∧
    (List.lookup "heart_rate" (buildPayload initGlobals 0 "t0") =
        some (JVal.jint 0) ∧
      List.lookup "spo2" (buildPayload initGlobals 0 "t0") =
        some (JVal.jint 0)) :=
  ⟨rfl,
   c2_invalid_fields_reported_as_zero initGlobals 0 "t0" (fun _ => 200)
     (buildPayload initGlobals 0 "t0") rfl⟩

/-- C6: on a transmission tick with no network association,
`sendDataToBackend` invokes the reconnection routine, makes zero POST
attempts, builds no record, and ends with the record dropped
(`linkDown`). -/
theorem c6_link_down_reconnects_without_attempts (g : Globals) (temp : Rat)
    (ts : String) (resp : Nat → Int) :
    sendDataToBackend false g temp ts resp =
      { reconnect := true, payload := none, tempReads := 0, events := [],
        outcome := SendOutcome.linkDown } ∧
    countPosts (sendDataToBackend false g temp ts resp).events = 0 :=
  ⟨rfl, rfl⟩

/-- C7: with the link up, the outbound record is exactly the five fields
`device_id` (constant 1), `heart_rate`, `spo2`, `temp_skin` (the fresh
temperature read), `timestamp`; for the estimate
(heartRate 72 valid, spo2 98 valid) and temperature 36.5 the payload
carries `device_id` 1, `heart_rate` 72, `spo2` 98, `temp_skin` 36.5. -/
theorem c7_payload_fields (g : Globals) (ls ld : Nat) (temp : Rat)
    (ts ts2 : String) (resp : Nat → Int) :
    (sendDataToBackend true g temp ts resp).payload =
      some (buildPayload g temp ts) ∧
    (buildPayload g temp ts).map Prod.fst =
      ["device_id", "heart_rate", "spo2", "temp_skin", "timestamp"] ∧
    List.lookup "temp_skin" (buildPayload g temp ts) = some (JVal.jrat temp) ∧
    buildPayload ⟨98, 1, 72, 1, ls, ld⟩ ((73 : Rat) / 2) ts2 =
      [("device_id", JVal.jint 1), ("heart_rate", JVal.jint 72),
       ("spo2", JVal.jint 98), ("temp_skin", JVal.jrat ((73 : Rat) / 2)),
       ("timestamp", JVal.jstr ts2)] := by
  refine ⟨rfl, rfl, rfl, ?_⟩
  simp [buildPayload, DEVICE_ID]

theorem countPosts_append (l1 l2 : List Ev) :
    countPosts (l1 ++ l2) = countPosts l1 + countPosts l2 := by
  induction l1 with
  | nil => simp [countPosts]
  | cons e l ih =>
    (cases e <;> simp [countPosts, ih])
    omega

/-- The event trace of `k` consecutive transiently failing attempts, each
followed by its backoff. -/
def transientRun (resp : Nat → Int) : Nat → List Ev
  | 0 => []
  | k + 1 => transientRun resp k ++ [Ev.post (resp k), Ev.backoff 2000]

theorem countPosts_transientRun (resp : Nat → Int) (k : Nat) :
    countPosts (transientRun resp k) = k := by
  induction k with
  | zero => rfl
  | succ k ih => simp [transientRun, countPosts_append, countPosts, ih]

/-- The retry loop never makes more than `maxRetries - retryCount`
further POST attempts. -/
theorem retryLoop_posts_le (resp : Nat → Int) :
    ∀ (fuel retryCount : Nat),
      countPosts (retryLoop resp fuel retryCount).1 ≤ maxRetries - retryCount := by
  intro fuel
  have hm : maxRetries = 3 := rfl
  induction fuel with
  | zero => intro rc; simp [retryLoop, countPosts]
  | succ fuel ih =>
    intro rc
    by_cases hrc : rc < maxRetries
    · simp only [retryLoop, if_pos hrc]
      rcases hcl : classify (resp rc) with _ | _ | _ <;> simp only [hcl]
      · simp [countPosts]; omega
      · simp [countPosts]; omega
      · have hrest := ih (rc + 1)
        by_cases h2 : rc + 1 < maxRetries <;>
          simp only [if_pos, if_neg, h2, if_true, if_false, countPosts] <;>
          omega
    · simp [retryLoop, if_neg hrc, countPosts]

/-- C4: at most `maxRetries = 3` POST attempts are ever made for one
record; when the first three results are all transient (transport error
or retryable status), exactly 3 attempts occur, consecutive attempts are
separated by one fixed 2000 ms backoff, no backoff follows the final
attempt, and the record is dropped (`exhausted`). -/
theorem c4_retry_budget_and_transient_trace (w : Bool) (g : Globals)
    (temp : Rat) (ts : String) (resp : Nat → Int) :
    countPosts (sendDataToBackend w g temp ts resp).events ≤ maxRetries ∧
    ((∀ k, k < maxRetries → classify (resp k) = HttpClass.retryable) →
      (sendDataToBackend true g temp ts resp).events =
        [Ev.post (resp 0), Ev.backoff 2000, Ev.post (resp 1),
         Ev.backoff 2000, Ev.post (resp 2)] ∧
      (sendDataToBackend true g temp ts resp).outcome = SendOutcome.exhausted) := by
  constructor
  · cases w
    · simp [sendDataToBackend, countPosts]
    · have h := retryLoop_posts_le resp (maxRetries + 1) 0
      simpa [sendDataToBackend] using h
  · intro htr
    have h0 := htr 0 (by decide)
    have h1 := htr 1 (by decide)
    have h2 := htr 2 (by decide)
    constructor <;>
      simp [sendDataToBackend, maxRetries, retryLoop, h0, h1, h2]

/-- C4 witness: with every POST failing with status 500, exactly the
3-attempt trace with two interleaved backoffs occurs. -/
theorem c4_retry_budget_and_transient_trace_witness :
    (∀ k, k < maxRetries →
      classify ((fun _ => (500 : Int)) k) = HttpClass.retryable) ∧
    (countPosts (sendDataToBackend true initGlobals 0 "t0"
        (fun _ => (500 : Int))).events ≤ maxRetries ∧
      ((∀ k, k < maxRetries →
          classify ((fun _ => (500 : Int)) k) = HttpClass.retryable) →
        (sendDataToBackend true initGlobals 0 "t0" (fun _ => (500 : Int))).events =
          [Ev.post 500, Ev.backoff 2000, Ev.post 500, Ev.backoff 2000,
           Ev.post 500] ∧
        (sendDataToBackend true initGlobals 0 "t0"
            (fun _ => (500 : Int))).outcome = SendOutcome.exhausted)) :=
  ⟨fun _ _ => rfl,
   c4_retry_budget_and_transient_trace true initGlobals 0 "t0"
     (fun _ => (500 : Int))⟩

/-- C5: if the first `k` attempts fail transiently and attempt `k`
(`k < maxRetries`) returns HTTP 301 or 302, the protocol stops at that
attempt: the trace ends with that POST (no further attempt and no backoff
after it), the outcome is `rejected` (record dropped), and exactly
`k + 1` attempts were made — in particular a 302 on the first attempt
yields exactly one attempt and no backoff at all. -/
theorem c5_redirect_stops_immediately (g : Globals) (temp : Rat)
    (ts : String) (resp : Nat → Int) (k : Nat) (hk : k < maxRetries)
    (hpre : ∀ j, j < k → classify (resp j) = HttpClass.retryable)
    (hred : resp k = 301 ∨ resp k = 302) :
    (sendDataToBackend true g temp ts resp).events =
      transientRun resp k ++ [Ev.post (resp k)] ∧
    (sendDataToBackend true g temp ts resp).outcome =
      SendOutcome.rejected (resp k) ∧
    countPosts (sendDataToBackend true g temp ts resp).events = k + 1 := by
  have hcl : classify (resp k) = HttpClass.redirect := by
    rcases hred with h | h <;> rw [h] <;> decide
  have hk3 : k < 3 := hk
  interval_cases k
  · refine ⟨?_, ?_, ?_⟩ <;>
      simp [sendDataToBackend, maxRetries, retryLoop, hcl, transientRun, countPosts]
  · have h0 := hpre 0 (by decide)
    refine ⟨?_, ?_, ?_⟩ <;>
      simp [sendDataToBackend, maxRetries, retryLoop, h0, hcl, transientRun,
        countPosts_append, countPosts]
  · have h0 := hpre 0 (by decide)
    have h1 := hpre 1 (by decide)
    refine ⟨?_, ?_, ?_⟩ <;>
      simp [sendDataToBackend, maxRetries, retryLoop, h0, h1, hcl, transientRun,
        countPosts_append, countPosts]

/-- C5 witness: a 302 on the very first attempt gives exactly one POST,
no backoff, and a rejected (dropped) record. -/
theorem c5_redirect_stops_immediately_witness :
    (0 < maxRetries ∧ ((fun _ => (302 : Int)) 0 = 301 ∨
        (fun _ => (302 : Int)) 0 = 302)) ∧
    ((sendDataToBackend true initGlobals 0 "t0" (fun _ => (302 : Int))).events =
        transientRun (fun _ => (302 : Int)) 0 ++ [Ev.post 302] ∧
      (sendDataToBackend true initGlobals 0 "t0"
          (fun _ => (302 : Int))).outcome = SendOutcome.rejected 302 ∧
      countPosts (sendDataToBackend true initGlobals 0 "t0"
          (fun _ => (302 : Int))).events = 0 + 1) :=
  ⟨⟨by decide, by decide⟩,
   c5_redirect_stops_immediately initGlobals 0 "t0" (fun _ => (302 : Int)) 0
     (by decide) (fun j hj => absurd hj (Nat.not_lt_zero j)) (by decide)⟩

/-- The busy-wait makes at most `fuel` `check()` calls and evaluates the
availability predicate at most `fuel + 1` times in its guard. -/
theorem waitAvail_bounds (M : SensorModel σ) :
    ∀ (fuel : Nat) (s : σ),
      (waitAvail M fuel s).2.1 ≤ fuel ∧ (waitAvail M fuel s).2.2 ≤ fuel + 1 := by
  intro fuel
  induction fuel with
  | zero => intro s; simp [waitAvail]
  | succ fuel ih =>
    intro s
    by_cases h : M.available s
    · simp [waitAvail, h]
    · have := ih (M.check s)
      simp only [waitAvail, if_neg h]
      omega

/-- Each fill slot evaluates the availability predicate at most
`ATTEMPT_BUDGET + 2` times. -/
theorem readSlot_polls_le (M : SensorModel σ) (s : σ) :
    (readSlot M s).2.2 ≤ ATTEMPT_BUDGET + 2 := by
  have h := (waitAvail_bounds M ATTEMPT_BUDGET s).2
  by_cases ha : M.available (waitAvail M ATTEMPT_BUDGET s).1 <;>
    (simp [readSlot, ha]; omega)

/-- A fill of `n` slots makes at most `n * (ATTEMPT_BUDGET + 2)` further
availability polls. -/
theorem fillBuffers_polls_le (M : SensorModel σ) :
    ∀ (n : Nat) (s : σ) (red ir : List Nat) (polls : Nat),
      (fillBuffers M n s red ir polls).polls ≤ polls + n * (ATTEMPT_BUDGET + 2) := by
  intro n
  induction n with
  | zero => intro s red ir polls; simp [fillBuffers, FillRes.polls]
  | succ n ih =>
    intro s red ir polls
    have hp := readSlot_polls_le M s
    simp only [fillBuffers]
    rcases hr : readSlot M s with ⟨o, s1, p⟩
    rw [hr] at hp
    simp only at hp
    cases o with
    | none =>
      simp only [FillRes.polls]
      calc polls + p ≤ polls + (ATTEMPT_BUDGET + 2) := by omega
        _ ≤ polls + (n + 1) * (ATTEMPT_BUDGET + 2) := by
            have : ATTEMPT_BUDGET + 2 ≤ (n + 1) * (ATTEMPT_BUDGET + 2) :=
              Nat.le_mul_of_pos_left _ (Nat.succ_pos n)
            omega
    | some rv =>
      have := ih s1 (rv.1 :: red) (rv.2 :: ir) (polls + p)
      calc (fillBuffers M n s1 (rv.1 :: red) (rv.2 :: ir) (polls + p)).polls
          ≤ polls + p + n * (ATTEMPT_BUDGET + 2) := this
        _ ≤ polls + (n + 1) * (ATTEMPT_BUDGET + 2) := by
            rw [Nat.succ_mul]
            omega

/-- A sensor that never reports data available: it drives the slot
busy-wait to its full budget. -/
def stuckSensor : SensorModel Unit :=
  ⟨fun _ => false, fun s => s, fun _ => 0, fun _ => 0, fun s => s⟩

/-- C8 counterexample: with a never-available sensor the first buffer
slot evaluates `particleSensor.available()` 102 times — 101 evaluations
by the while-loop guard (attempts 0 through 100) plus the re-test at line
109 — refuting "polled at most 100 times" as stated. -/
theorem c8_poll_budget_counterexample :
    (readSlot stuckSensor ()).2.2 = 102 ∧
    ¬ (readSlot stuckSensor ()).2.2 ≤ 100 := by
  decide

/-- C8 as amended: per slot, at most `ATTEMPT_BUDGET = 100` check/delay
attempts are made and the availability predicate is evaluated at most
`ATTEMPT_BUDGET + 2 = 102` times; a whole fill makes at most
`BUFFER_SIZE * (ATTEMPT_BUDGET + 2)` availability polls (so the fill
routine terminates after a bounded number of sensor polls), and if
availability is never reached the fill aborts as timed out. -/
theorem c8_amended_bounded_polls (M : SensorModel σ) (s : σ) :
    (waitAvail M ATTEMPT_BUDGET s).2.1 ≤ ATTEMPT_BUDGET ∧
    (readSlot M s).2.2 ≤ ATTEMPT_BUDGET + 2 ∧
    (fillBuffers M BUFFER_SIZE s [] [] 0).polls ≤
      BUFFER_SIZE * (ATTEMPT_BUDGET + 2) ∧
    ((∀ t, M.available t = false) →
      (fillBuffers M BUFFER_SIZE s [] [] 0).isTimedOut = true) := by
  refine ⟨(waitAvail_bounds M ATTEMPT_BUDGET s).1, readSlot_polls_le M s, ?_, ?_⟩
  · have := fillBuffers_polls_le M BUFFER_SIZE s [] [] 0
    omega
  · intro h
    show (fillBuffers M 100 s [] [] 0).isTimedOut = true
    simp [fillBuffers, readSlot, h, FillRes.isTimedOut]

/-- C8 witness for the amended bounds, at the never-available sensor. -/
theorem c8_amended_bounded_polls_witness :
    (∀ t, stuckSensor.available t = false) ∧
    ((waitAvail stuckSensor ATTEMPT_BUDGET ()).2.1 ≤ ATTEMPT_BUDGET ∧
      (readSlot stuckSensor ()).2.2 ≤ ATTEMPT_BUDGET + 2 ∧
      (fillBuffers stuckSensor BUFFER_SIZE () [] [] 0).polls ≤
        BUFFER_SIZE * (ATTEMPT_BUDGET + 2) ∧
      ((∀ t, stuckSensor.available t = false) →
        (fillBuffers stuckSensor BUFFER_SIZE () [] [] 0).isTimedOut = true)) :=
  ⟨fun _ => rfl, c8_amended_bounded_polls stuckSensor ()⟩

/-- The acquisition routine never touches `lastDataSend`. -/
theorem readSensors_lastDataSend (M : SensorModel σ) (est : Estimator)
    (tGate tSet : Nat) (g : Globals) (s : σ) :
    (readSensors M est tGate tSet g s).g.lastDataSend = g.lastDataSend := by
  unfold readSensors
  split
  · rfl
  · split <;> rfl

/-- A closed acquisition gate is a complete no-op returning false. -/
theorem readSensors_gate_closed (M : SensorModel σ) (est : Estimator)
    (tGate tSet : Nat) (g : Globals) (s : σ)
    (h : elapsed32 tGate g.lastSensorRead < SENSOR_READ_INTERVAL) :
    readSensors M est tGate tSet g s = ⟨false, false, g, s⟩ := by
  unfold readSensors
  rw [if_pos h]

/-- An open acquisition gate runs the fill and stamps `lastSensorRead`
with `tSet` whether or not the fill completes. -/
theorem readSensors_gate_open (M : SensorModel σ) (est : Estimator)
    (tGate tSet : Nat) (g : Globals) (s : σ)
    (h : SENSOR_READ_INTERVAL ≤ elapsed32 tGate g.lastSensorRead) :
    (readSensors M est tGate tSet g s).ranFill = true ∧
    (readSensors M est tGate tSet g s).g.lastSensorRead = tSet := by
  unfold readSensors
  rw [if_neg (not_lt.mpr h)]
  split <;> exact ⟨rfl, rfl⟩

/-- When `readSensors` returns false, the four vital globals are
untouched. -/
theorem readSensors_not_ok_vitals (M : SensorModel σ) (est : Estimator)
    (tGate tSet : Nat) (g : Globals) (s : σ)
    (h : (readSensors M est tGate tSet g s).ok = false) :
    (readSensors M est tGate tSet g s).g.validHeartRate = g.validHeartRate ∧
    (readSensors M est tGate tSet g s).g.validSPO2 = g.validSPO2 ∧
    (readSensors M est tGate tSet g s).g.heartRate = g.heartRate ∧
    (readSensors M est tGate tSet g s).g.spo2 = g.spo2 := by
  by_cases hg : elapsed32 tGate g.lastSensorRead < SENSOR_READ_INTERVAL
  · rw [readSensors_gate_closed M est tGate tSet g s hg]
    exact ⟨rfl, rfl, rfl, rfl⟩
  · unfold readSensors at h ⊢
    rw [if_neg hg] at h ⊢
    rcases hfill : fillBuffers M BUFFER_SIZE s [] [] 0 with
        ⟨red, ir, s1, p⟩ | ⟨red, ir, s1, p⟩
    · exact ⟨rfl, rfl, rfl, rfl⟩
    · rw [hfill] at h
      exact Bool.noConfusion h

/-- The transmission tick never changes `lastSensorRead` or any vital
field (it only stamps `lastDataSend` when its gate passes). -/
theorem transmissionTick_frame (currentTime : Nat) (g : Globals) (w : Bool)
    (temp : Rat) (ts : String) (resp : Nat → Int) :
    (transmissionTick currentTime g w temp ts resp).1.lastSensorRead =
      g.lastSensorRead ∧
    (transmissionTick currentTime g w temp ts resp).1.validHeartRate =
      g.validHeartRate ∧
    (transmissionTick currentTime g w temp ts resp).1.validSPO2 =
      g.validSPO2 ∧
    (transmissionTick currentTime g w temp ts resp).1.heartRate =
      g.heartRate ∧
    (transmissionTick currentTime g w temp ts resp).1.spo2 = g.spo2 := by
  unfold transmissionTick
  split <;> exact ⟨rfl, rfl, rfl, rfl, rfl⟩

/-- C10: a transmission tick whose gate passes but which finds the link
down still stamps `lastDataSend := currentTime` (the update happens
before the link check), builds no record, reads no temperature, makes no
POST, triggers reconnection, and changes no other scheduler state
(`lastSensorRead` and the four vital fields are untouched). -/
theorem c10_linkdown_tick_updates_send_timer_only (t : Nat) (g : Globals)
    (temp : Rat) (ts : String) (resp : Nat → Int)
    (hgate : DATA_SEND_INTERVAL ≤ elapsed32 t g.lastDataSend) :
    transmissionTick t g false temp ts resp =
      ({ g with lastDataSend := t },
       some { reconnect := true, payload := none, tempReads := 0,
              events := [], outcome := SendOutcome.linkDown }) ∧
    ({ g with lastDataSend := t } : Globals).lastSensorRead =
      g.lastSensorRead ∧
    ({ g with lastDataSend := t } : Globals).validHeartRate =
      g.validHeartRate ∧
    ({ g with lastDataSend := t } : Globals).validSPO2 = g.validSPO2 ∧
    ({ g with lastDataSend := t } : Globals).heartRate = g.heartRate ∧
    ({ g with lastDataSend := t } : Globals).spo2 = g.spo2 := by
  refine ⟨?_, rfl, rfl, rfl, rfl, rfl⟩
  simp only [transmissionTick, if_pos hgate]
  rfl

/-- C10 witness: at boot-state globals and a tick at 1000 ms with the
link down, only `lastDataSend` changes and the link-down report is
produced. -/
theorem c10_linkdown_tick_updates_send_timer_only_witness :
    DATA_SEND_INTERVAL ≤ elapsed32 1000 initGlobals.lastDataSend ∧
    transmissionTick 1000 initGlobals false 0 "t0" (fun _ => 200) =
      (⟨0, 0, 0, 0, 0, 1000⟩,
       some { reconnect := true, payload := none, tempReads := 0,
              events := [], outcome := SendOutcome.linkDown }) :=
  ⟨by decide,
   (c10_linkdown_tick_updates_send_timer_only 1000 initGlobals 0 "t0"
      (fun _ => 200) (by decide)).1⟩

/-- Invariant chain for the transmission gate: starting from any lower
bound `x` of `lastDataSend`, consecutive transmission times of a
time-ordered run are at least `DATA_SEND_INTERVAL` apart. -/
theorem chainSendAux (M : SensorModel σ) (est : Estimator) (es : List PassEnv) :
    ∀ (t : Nat) (g : Globals) (s : σ) (x : Nat),
      envsOrdered t es = true → x ≤ g.lastDataSend → g.lastDataSend ≤ t →
      List.Chain' (fun a b => a + DATA_SEND_INTERVAL ≤ b)
        (x :: sendTimesOf es (runLoop M est es g s).2) := by
  induction es with
  | nil =>
    intro t g s x _ _ _
    simp [runLoop, sendTimesOf]
  | cons e es ih =>
    intro t g s x hord hx ht
    simp only [envsOrdered, Bool.and_eq_true, decide_eq_true_eq] at hord
    obtain ⟨⟨⟨h1, h2⟩, h3⟩, h4⟩ := hord
    have hds : (readSensors M est e.tGate e.tSet g s).g.lastDataSend =
        g.lastDataSend := readSensors_lastDataSend M est e.tGate e.tSet g s
    simp only [runLoop, loop]
    by_cases hgate : DATA_SEND_INTERVAL ≤
        elapsed32 e.tLoop (readSensors M est e.tGate e.tSet g s).g.lastDataSend
    · simp only [transmissionTick, if_pos hgate, sendTimesOf, Option.isSome_some,
        if_true, List.cons_append, List.nil_append]
      rw [List.chain'_cons]
      constructor
      · rw [hds] at hgate
        have hb : g.lastDataSend + DATA_SEND_INTERVAL ≤ e.tLoop :=
          elapsed32_ge e.tLoop g.lastDataSend DATA_SEND_INTERVAL
            (le_trans ht h1) (by norm_num [DATA_SEND_INTERVAL, UINT32_MOD]) hgate
        omega
      · exact ih e.tSet _ _ e.tLoop h4 (le_refl _) (le_trans h2 h3)
    · simp only [transmissionTick, if_neg hgate, sendTimesOf, Option.isSome_none,
        if_false, List.nil_append]
      refine ih e.tSet _ _ x h4 ?_ ?_
      · rw [hds]; exact hx
      · rw [hds]; exact le_trans ht (le_trans h1 (le_trans h2 h3))

/-- Invariant chain for the acquisition gate: starting from any lower
bound `x` of `lastSensorRead`, consecutive acquisition times of a
time-ordered run are at least `SENSOR_READ_INTERVAL` apart. -/
theorem chainFillAux (M : SensorModel σ) (est : Estimator) (es : List PassEnv) :
    ∀ (t : Nat) (g : Globals) (s : σ) (x : Nat),
      envsOrdered t es = true → x ≤ g.lastSensorRead → g.lastSensorRead ≤ t →
      List.Chain' (fun a b => a + SENSOR_READ_INTERVAL ≤ b)
        (x :: fillTimesOf es (runLoop M est es g s).2) := by
  induction es with
  | nil =>
    intro t g s x _ _ _
    simp [runLoop, fillTimesOf]
  | cons e es ih =>
    intro t g s x hord hx ht
    simp only [envsOrdered, Bool.and_eq_true, decide_eq_true_eq] at hord
    obtain ⟨⟨⟨h1, h2⟩, h3⟩, h4⟩ := hord
    have hframe := transmissionTick_frame e.tLoop
      (readSensors M est e.tGate e.tSet g s).g e.wifiConnected e.temp e.ts e.resp
    simp only [runLoop, loop]
    by_cases hga : elapsed32 e.tGate g.lastSensorRead < SENSOR_READ_INTERVAL
    · rw [readSensors_gate_closed M est e.tGate e.tSet g s hga] at hframe ⊢
      simp only [fillTimesOf, if_false, List.nil_append, Bool.false_eq_true]
      refine ih e.tSet _ _ x h4 ?_ ?_
      · rw [hframe.1]; exact hx
      · rw [hframe.1]
        exact le_trans ht (le_trans h1 (le_trans h2 h3))
    · have hopen := readSensors_gate_open M est e.tGate e.tSet g s (not_lt.mp hga)
      simp only [fillTimesOf, hopen.1, if_true, List.cons_append, List.nil_append]
      rw [List.chain'_cons]
      constructor
      · have hb : g.lastSensorRead + SENSOR_READ_INTERVAL ≤ e.tGate :=
          elapsed32_ge e.tGate g.lastSensorRead SENSOR_READ_INTERVAL
            (le_trans ht (le_trans h1 h2))
            (by norm_num [SENSOR_READ_INTERVAL, UINT32_MOD]) (not_lt.mp hga)
        omega
      · refine ih e.tSet _ _ e.tGate h4 ?_ ?_
        · rw [hframe.1, hopen.2]; exact h3
        · rw [hframe.1, hopen.2]

/-- C3: over any time-ordered sequence of scheduler passes from boot,
consecutive transmission-cycle runs are at least
`DATA_SEND_INTERVAL = 1000` ms apart and consecutive acquisition-cycle
runs are at least `SENSOR_READ_INTERVAL = 2000` ms apart (measured at the
`millis()` readings each gate compares), no matter how frequently the
passes occur. -/
theorem c3_cycles_rate_limited (M : SensorModel σ) (est : Estimator)
    (es : List PassEnv) (s : σ) (hord : envsOrdered 0 es = true) :
    List.Chain' (fun a b => a + DATA_SEND_INTERVAL ≤ b)
      (sendTimesOf es (runLoop M est es initGlobals s).2) ∧
    List.Chain' (fun a b => a + SENSOR_READ_INTERVAL ≤ b)
      (fillTimesOf es (runLoop M est es initGlobals s).2) := by
  constructor
  · exact (List.chain'_cons'.mp
      (chainSendAux M est es 0 initGlobals s 0 hord (le_refl 0) (le_refl 0))).2
  · exact (List.chain'_cons'.mp
      (chainFillAux M est es 0 initGlobals s 0 hord (le_refl 0) (le_refl 0))).2

/-- An always-available sensor over a trivial state, for concrete runs. -/
def demoSensor : SensorModel Unit :=
  ⟨fun _ => true, fun s => s, fun _ => 0, fun _ => 0, fun s => s⟩

/-- A concrete estimator for demonstration runs. -/
def demoEstimator : Estimator := fun _ _ => (0, 0, 0, 0)

/-- A concrete pass environment: all three `millis()` readings equal `t`,
link up, temperature 0, POSTs answered with 200. -/
def demoEnv (t : Nat) : PassEnv := ⟨t, t, t, true, 0, "t0", fun _ => 200⟩

/-- C3 witness: a concrete ordered two-pass run. -/
theorem c3_cycles_rate_limited_witness :
    envsOrdered 0 [demoEnv 1500, demoEnv 3500] = true ∧
    (List.Chain' (fun a b => a + DATA_SEND_INTERVAL ≤ b)
        (sendTimesOf [demoEnv 1500, demoEnv 3500]
          (runLoop demoSensor demoEstimator [demoEnv 1500, demoEnv 3500]
            initGlobals ()).2) ∧
      List.Chain' (fun a b => a + SENSOR_READ_INTERVAL ≤ b)
        (fillTimesOf [demoEnv 1500, demoEnv 3500]
          (runLoop demoSensor demoEstimator [demoEnv 1500, demoEnv 3500]
            initGlobals ()).2)) :=
  ⟨by decide,
   c3_cycles_rate_limited demoSensor demoEstimator [demoEnv 1500, demoEnv 3500]
     () (by decide)⟩

/-- With both validity flags zero, the payload reports zero heart rate
and zero SpO2. -/
theorem buildPayload_zero_flags (g : Globals) (temp : Rat) (ts : String)
    (h1 : g.validHeartRate = 0) (h2 : g.validSPO2 = 0) :
    List.lookup "heart_rate" (buildPayload g temp ts) = some (JVal.jint 0) ∧
    List.lookup "spo2" (buildPayload g temp ts) = some (JVal.jint 0) := by
  simp [buildPayload, List.lookup, h1, h2]

/-- Generalised C9 invariant: if the validity flags are zero and no pass
of (a prefix of) the run acquires, every record sent in that prefix
reports zero for both fields. -/
theorem c9Aux (M : SensorModel σ) (est : Estimator) (es : List PassEnv) :
    ∀ (g : Globals) (s : σ) (n : Nat),
      g.validHeartRate = 0 → g.validSPO2 = 0 →
      (∀ o ∈ (runLoop M est es g s).2.take n, o.acquired = false) →
      ∀ o ∈ (runLoop M est es g s).2.take n, ∀ rep, o.sent = some rep →
        ∀ p, rep.payload = some p →
          List.lookup "heart_rate" p = some (JVal.jint 0) ∧
          List.lookup "spo2" p = some (JVal.jint 0) := by
  induction es with
  | nil =>
    intro g s n _ _ _ o ho
    simp [runLoop] at ho
  | cons e es ih =>
    intro g s n hvh hvs hnoacq o ho rep hrep p hp
    cases n with
    | zero => simp at ho
    | succ n =>
      have hstep : (runLoop M est (e :: es) g s).2 =
          (loop M est e g s).2.2 ::
            (runLoop M est es (loop M est e g s).1 (loop M est e g s).2.1).2 := rfl
      rw [hstep, List.take_succ_cons] at hnoacq ho
      have hok : (readSensors M est e.tGate e.tSet g s).ok = false :=
        hnoacq _ (List.mem_cons_self _ _)
      have hpres := readSensors_not_ok_vitals M est e.tGate e.tSet g s hok
      have hvh1 : (readSensors M est e.tGate e.tSet g s).g.validHeartRate = 0 :=
        hpres.1.trans hvh
      have hvs1 : (readSensors M est e.tGate e.tSet g s).g.validSPO2 = 0 :=
        hpres.2.1.trans hvs
      rcases List.mem_cons.mp ho with rfl | hmem
      · -- the record sent on this very pass
        have hsent : (transmissionTick e.tLoop
            (readSensors M est e.tGate e.tSet g s).g e.wifiConnected e.temp
            e.ts e.resp).2 = some rep := hrep
        by_cases hg2 : DATA_SEND_INTERVAL ≤
            elapsed32 e.tLoop (readSensors M est e.tGate e.tSet g s).g.lastDataSend
        · rw [transmissionTick, if_pos hg2] at hsent
          simp only [Option.some.injEq] at hsent
          rw [← hsent] at hp
          cases hw : e.wifiConnected
          · rw [hw] at hp
            simp [sendDataToBackend] at hp
          · rw [hw] at hp
            simp only [sendDataToBackend, Bool.true_eq_false, if_false,
              Option.some.injEq] at hp
            rw [← hp]
            exact buildPayload_zero_flags _ e.temp e.ts hvh1 hvs1
        · rw [transmissionTick, if_neg hg2] at hsent
          exact Option.noConfusion hsent
      · -- a record sent on a later pass of the prefix
        have hg2vh : (loop M est e g s).1.validHeartRate = 0 := by
          show (transmissionTick e.tLoop
            (readSensors M est e.tGate e.tSet g s).g e.wifiConnected e.temp
            e.ts e.resp).1.validHeartRate = 0
          exact (transmissionTick_frame e.tLoop _ e.wifiConnected e.temp e.ts
            e.resp).2.1.trans hvh1
        have hg2vs : (loop M est e g s).1.validSPO2 = 0 := by
          show (transmissionTick e.tLoop
            (readSensors M est e.tGate e.tSet g s).g e.wifiConnected e.temp
            e.ts e.resp).1.validSPO2 = 0
          exact (transmissionTick_frame e.tLoop _ e.wifiConnected e.temp e.ts
            e.resp).2.2.1.trans hvs1
        exact ih (loop M est e g s).1 (loop M est e g s).2.1 n hg2vh hg2vs
          (fun o2 ho2 => hnoacq o2 (List.mem_cons_of_mem _ ho2)) o hmem rep
          hrep p hp

/-- C9: in a run from boot state (zero-initialised validity flags), as
long as no pass has completed an acquisition, every telemetry record
actually sent reports `heart_rate = 0` and `spo2 = 0`. -/
theorem c9_zeros_reported_before_first_acquisition (M : SensorModel σ)
    (est : Estimator) (es : List PassEnv) (s : σ) (n : Nat)
    (hnoacq : ∀ o ∈ (runLoop M est es initGlobals s).2.take n,
      o.acquired = false) :
    ∀ o ∈ (runLoop M est es initGlobals s).2.take n, ∀ rep,
      o.sent = some rep → ∀ p, rep.payload = some p →
        List.lookup "heart_rate" p = some (JVal.jint 0) ∧
        List.lookup "spo2" p = some (JVal.jint 0) :=
  c9Aux M est es initGlobals s n rfl rfl hnoacq

/-- C9 witness: one pass at 1500 ms — the acquisition gate stays closed,
the transmission fires, and the claim applies to its record. -/
theorem c9_zeros_reported_before_first_acquisition_witness :
    (∀ o ∈ (runLoop demoSensor demoEstimator [demoEnv 1500]
        initGlobals ()).2.take 1, o.acquired = false) ∧
    (∀ o ∈ (runLoop demoSensor demoEstimator [demoEnv 1500]
        initGlobals ()).2.take 1, ∀ rep, o.sent = some rep →
      ∀ p, rep.payload = some p →
        List.lookup "heart_rate" p = some (JVal.jint 0) ∧
        List.lookup "spo2" p = some (JVal.jint 0)) :=
  ⟨by decide,
   c9_zeros_reported_before_first_acquisition demoSensor demoEstimator
     [demoEnv 1500] () 1 (by decide)⟩

end Hemis
